import Mathlib

/-!
Shallow embedding of the layout and code-generation core of the
timeline-fishbone generator (Python sources under
src/timeline_fishbone/core/), together with theorems settling the
frozen claims about it.

Conventions of the embedding:
* a pandas DataFrame row is a `Record`; a dataset is a `List Record`
  in file order;
* Python floats are modelled as rationals (`ℚ`); the claims under
  study are order- and structure-claims that do not depend on binary
  rounding;
* the float-to-string rendering used inside f-strings is a parameter
  `showQ : ℚ → String` of the generator, so the theorems hold for
  every concrete rendering;
* the mutable instance state of `LaTeXGenerator` / `SmartLayoutEngine`
  (`self.category_colors`, `self._year_order`) is threaded explicitly
  as a `GenState`;
* `int(...)` parsing accepts an optional sign and ASCII digits with
  single underscores between digits, as Python does for ASCII input.
-/

namespace TimelineFishbone

/-- A dataset row: columns 年份 (year), 种类 (category), 方法名 (name),
引用标识 (citation key). -/
structure Record where
  year : Int
  category : String
  name : String
  citeKey : String
deriving Repr, DecidableEq

/-- `LayoutConfig` from config.py (the fields the core reads). -/
structure LayoutConfig where
  timeline_width : String
  year_spacing : ℚ
  branch_distance : ℚ
  spine_length : ℚ
  smart_spacing : Bool
  min_year_spacing : ℚ
deriving Repr, DecidableEq

/-- `TimeLogicConfig` from config.py (the fields the core reads).
`upper_years` is `Option String` to model Python's `None` as well as a
string value (the code guards with `upper_years or ""`). -/
structure TimeLogicConfig where
  time_direction : String
  start_year : Int
  end_year : Int
  upper_years : Option String
  lower_years : String
deriving Repr, DecidableEq

/-- `VisualConfig` from config.py. -/
structure VisualConfig where
  node_width : String
  node_height : String
  node_font : String
  ref_font : String
  inner_sep : String
  line_width : String
  rounded_corners : String
  max_lines : Nat
deriving Repr, DecidableEq

/-- `ColorConfig` from config.py (instance fields; the palette
`DEFAULT_COLORS` is a class constant, modelled as `defaultColors`). -/
structure ColorConfig where
  color_single : String
  color_multi : String
  color_adaptive : String
  color_vl : String
  color_dense : String
  color_attention : String
  color_hybrid : String
  axis_color : String
  conn_color : String
deriving Repr, DecidableEq

/-- `ColorConfig.DEFAULT_COLORS`: the fixed 20-entry palette. -/
def defaultColors : List String :=
  [ "cyan!20", "green!20", "yellow!40", "purple!20", "orange!30",
    "red!20", "blue!20", "pink!20", "teal!20", "lime!30",
    "magenta!20", "brown!20", "violet!20", "olive!30", "navy!20",
    "maroon!20", "gray!30", "indigo!20", "gold!30", "coral!20" ]

/-- `ArrowConfig` from config.py. -/
structure ArrowConfig where
  arrow_style : String
  arrow_color : String
  arrow_shorten : String
deriving Repr, DecidableEq

/-- `OutputConfig` from config.py (the fields the generator reads). -/
structure OutputConfig where
  show_legend : Bool
  caption : String
  label : String
  adjustbox_width : String
deriving Repr, DecidableEq

/-- Sort a list of integers ascending (Python `sorted`; the values
sorted here are distinct, so stability is irrelevant). -/
def sortInt (l : List Int) : List Int :=
  l.insertionSort (fun a b => a ≤ b)

/-- Code-point lexicographic comparison of character lists (how
Python compares `str` values). -/
def charListLe : List Char → List Char → Bool
  | [], _ => true
  | _ :: _, [] => false
  | a :: as2, b :: bs =>
    if a.toNat < b.toNat then true
    else if b.toNat < a.toNat then false
    else charListLe as2 bs

/-- Python `<=` on strings: code-point lexicographic order. -/
def strLe (a b : String) : Bool :=
  charListLe a.data b.data

/-- Insert into a sorted list of strings (the standard insertion-sort
step). -/
def insertStr (x : String) : List String → List String
  | [] => [x]
  | y :: ys => if strLe x y then x :: y :: ys else y :: insertStr x ys

/-- Sort a list of strings ascending by code points (Python `sorted`;
the values sorted here are distinct, so stability is irrelevant). -/
def sortStr (l : List String) : List String :=
  l.foldr insertStr []

/-- `pd.unique` / `Series.unique` (used for both 年份 and 种类):
distinct values in order of first appearance. -/
def uniqueFirst {α : Type} [DecidableEq α] : List α → List α :=
  go []
where
  go (seen : List α) : List α → List α
    | [] => []
    | x :: xs => if x ∈ seen then go seen xs else x :: go (x :: seen) xs

/-- Rows of the dataset whose 年份 equals `y` (in file order; pandas
`groupby` preserves within-group row order). -/
def rowsOfYear (df : List Record) (y : Int) : List Record :=
  df.filter (fun r => r.year = y)

/-- The result record of `SmartLayoutEngine.calculate_layout`
(the `layout_params` dictionary). -/
structure LayoutParams where
  year_counts : List (Int × Nat)
  max_nodes : Nat
  years : List Int
  positions : List (Int × ℚ)
  adjusted_spacing : ℚ
  adjusted_branch : ℚ
  total_width : ℚ
deriving Repr, DecidableEq

/-- `df.groupby("年份").size().to_dict()`: node count per year, keyed
by the sorted distinct years (pandas groupby sorts its keys). -/
def yearCounts (df : List Record) : List (Int × Nat) :=
  (sortInt (uniqueFirst (df.map (fun r => r.year)))).map
    (fun y => (y, (rowsOfYear df y).length))

/-- `max(year_counts.values()) if year_counts else 1`. -/
def maxNodes (df : List Record) : Nat :=
  ((yearCounts df).map (fun p => p.2)).foldr max
    (if yearCounts df = [] then 1 else 0)

/-- `SmartLayoutEngine.calculate_layout` (layout_engine.py lines
42-118), with the mutation of `self._year_order` reflected by the
caller keeping `years`. -/
def calculate_layout (cfg : LayoutConfig) (df : List Record) :
    LayoutParams :=
  let year_counts := yearCounts df
  let max_nodes := maxNodes df
  let years := sortInt (uniqueFirst (df.map (fun r => r.year)))
  let adjusted_spacing :=
    if cfg.smart_spacing then
      max cfg.min_year_spacing
        (min ((max_nodes : ℚ) * (5 / 2)) cfg.year_spacing)
    else cfg.year_spacing
  let adjusted_branch :=
    if cfg.smart_spacing then
      max cfg.branch_distance ((max_nodes : ℚ) * (3 / 5))
    else cfg.branch_distance
  let positions :=
    years.enum.map (fun p => (p.2, (p.1 : ℚ) * adjusted_spacing))
  let total_width :=
    if years.length > 1 then
      ((years.length : ℚ) - 1) * adjusted_spacing
    else 0
  { year_counts := year_counts
    max_nodes := max_nodes
    years := years
    positions := positions
    adjusted_spacing := adjusted_spacing
    adjusted_branch := adjusted_branch
    total_width := total_width }

/-- `list.index` with the `ValueError` handler of determine_side:
index of `year` in `yo`, or 0 when absent. -/
def pyIndexOr0 (yo : List Int) (year : Int) : Nat :=
  if year ∈ yo then go yo year else 0
where
  go : List Int → Int → Nat
    | [], _ => 0
    | y :: ys, x => if y = x then 0 else go ys x + 1

/-- The index-parity branch of `determine_side` (also its fallback on
a malformed rule): "above" iff the year's zero-based index in the
year order is even. -/
def orderSide (yo : List Int) (year : Int) : String :=
  if pyIndexOr0 yo year % 2 = 0 then "above" else "below"

/-- Python `str.lower()` (ASCII case folding; the rule keywords under
study are ASCII). -/
def pyLower (s : String) : String :=
  String.mk (s.data.map Char.toLower)

/-- Whitespace stripped by Python `str.strip()` (the ASCII part). -/
def pyIsSpace (c : Char) : Bool :=
  c = ' ' || c = '\t' || c = '\n' || c = '\r' ||
  c = '\x0b' || c = '\x0c'

/-- Python `str.strip()` on the characters of a token. -/
def pyStrip (l : List Char) : List Char :=
  ((l.dropWhile pyIsSpace).reverse.dropWhile pyIsSpace).reverse

/-- Python `str.split(",")` on the characters of the rule
(`"".split(",") == [""]`, `",".split(",") == ["", ""]`). -/
def splitOnComma : List Char → List (List Char)
  | [] => [[]]
  | c :: rest =>
    let r := splitOnComma rest
    if c = ',' then [] :: r
    else
      match r with
      | h :: t => (c :: h) :: t
      | [] => [[c]]

/-- Validity of the digit part of Python `int()` on ASCII input after
the first digit: digits with single underscores between digits. -/
def numTail : List Char → Bool
  | [] => true
  | c :: rest =>
    if c = '_' then
      match rest with
      | [] => false
      | d :: rest2 => d.isDigit && numTail rest2
    else c.isDigit && numTail rest

/-- Decimal value of a digit-and-underscore token. -/
def digitsVal : List Char → Nat → Nat
  | [], acc => acc
  | c :: rest, acc =>
    if c = '_' then digitsVal rest acc
    else digitsVal rest (acc * 10 + (c.toNat - 48))

/-- Python `int(s)` on a stripped ASCII token: optional sign, then a
nonempty digit string with single underscores between digits; `none`
models the `ValueError`. -/
def pyIntChars : List Char → Option Int
  | [] => none
  | c :: rest =>
    if c = '-' then
      match rest with
      | [] => none
      | d :: rest2 =>
        if d.isDigit && numTail rest2 then
          some (-(digitsVal rest 0 : Int))
        else none
    else if c = '+' then
      match rest with
      | [] => none
      | d :: rest2 =>
        if d.isDigit && numTail rest2 then
          some ((digitsVal rest 0 : Int))
        else none
    else
      if c.isDigit && numTail rest then
        some ((digitsVal (c :: rest) 0 : Int))
      else none

/-- `[int(y.strip()) for y in rule.split(",") if y.strip()]`:
`none` models the `ValueError` escaping the list comprehension. -/
def parseYearList (rule : String) : Option (List Int) :=
  (((splitOnComma rule.data).map pyStrip).filter
    (fun t => t ≠ [])).mapM pyIntChars

/-- `SmartLayoutEngine.determine_side` (layout_engine.py lines
135-186), returning the side together with a flag recording whether
the warning of the `except` branch was emitted.  `yearOrder` is the
engine state `self._year_order`. -/
def determine_sideW (tc : TimeLogicConfig) (yearOrder : List Int)
    (year : Int) : String × Bool :=
  let upper_rule := pyLower (tc.upper_years.getD (""))
  let yo := if yearOrder = [] then [year] else yearOrder
  if upper_rule = "order" ∨ upper_rule = "sequence" ∨
      upper_rule = "index" then
    (orderSide yo year, false)
  else if upper_rule = "odd" then
    ((if year % 2 = 1 then "above" else "below"), false)
  else if upper_rule = "even" then
    ((if year % 2 = 0 then "above" else "below"), false)
  else
    match parseYearList upper_rule with
    | some upper_list =>
      ((if year ∈ upper_list then "above" else "below"), false)
    | none => (orderSide yo year, true)

/-- `SmartLayoutEngine.determine_side`: the returned side. -/
def determine_side (tc : TimeLogicConfig) (yearOrder : List Int)
    (year : Int) : String :=
  (determine_sideW tc yearOrder year).1

/-- The normalized rule selector
`(self.time_config.upper_years or "").lower()`. -/
def upperRule (tc : TimeLogicConfig) : String :=
  pyLower (tc.upper_years.getD (""))

/-- The `legacy_mapping` dictionary of
`ColorConfig.get_category_colors` (config.py lines 155-163), as a
lookup. -/
def legacyMapping (c : ColorConfig) (cat : String) : Option String :=
  if cat = "singleproto" then some c.color_single
  else if cat = "multiproto" then some c.color_multi
  else if cat = "adaptive" then some c.color_adaptive
  else if cat = "vl" then some c.color_vl
  else if cat = "dense" then some c.color_dense
  else if cat = "attention" then some c.color_attention
  else if cat = "hybrid" then some c.color_hybrid
  else none

/-- The color stored by `get_category_colors` for the category at
index `i` of the sorted category list: its legacy color if it is a
known category, else the palette entry at `i` modulo the palette
size. -/
def categoryColorAt (c : ColorConfig) (i : Nat) (cat : String) :
    String :=
  match legacyMapping c cat with
  | some col => col
  | none => defaultColors.getD (i % defaultColors.length) ("")

/-- `ColorConfig.get_category_colors` (config.py lines 144-175): the
`color_map` dictionary in its insertion order (`enumerate(sorted(
categories))`). -/
def get_category_colors (c : ColorConfig) (categories : List String) :
    List (String × String) :=
  (sortStr categories).enum.map (fun p =>
    (p.2, categoryColorAt c p.1 p.2))

/-- Dict read `self.category_colors[cat]` on the computed mapping
(always present along the generator's paths). -/
def colorOf (m : List (String × String)) (cat : String) : String :=
  (m.lookup cat).getD ("")

/-- `color.split("!")[0] if "!" in color else color` (the base hue
used for the derived border color). -/
def baseColor (color : String) : String :=
  if color.contains '!' then (color.splitOn ("!")).headD color
  else color

/-- The mutable instance state of `LaTeXGenerator`:
`self.category_colors` and the layout engine's `self._year_order`. -/
structure GenState where
  category_colors : List (String × String)
  year_order : List Int
deriving Repr, DecidableEq

/-- The configuration bundle handed to `LaTeXGenerator.__init__`. -/
structure GenConfig where
  layout : LayoutConfig
  time_logic : TimeLogicConfig
  visual : VisualConfig
  colors : ColorConfig
  arrows : ArrowConfig
  output : OutputConfig
deriving Repr, DecidableEq

/-- `LaTeXGenerator._generate_preamble`. -/
def generate_preamble (o : OutputConfig) : String :=
  String.intercalate "\n"
    [ "% Required packages/settings (add these in LaTeX preamble):",
      "% \\usepackage\x7btikz\x7d",
      "% \\usepackage\x7bxcolor\x7d",
      "% \\usepackage\x7badjustbox\x7d % provide smart scaling",
      "% \\usepackage\x7bgeometry\x7d",
      "% \\geometry\x7ba4paper, left=2.5cm, right=2.5cm,",
      "%   top=2.5cm, bottom=2.5cm\x7d",
      "% \\usetikzlibrary\x7bpositioning, matrix, fit,",
      "%   backgrounds, shapes, arrows.meta\x7d",
      "",
      "\\begin\x7bfigure\x7d[htbp]",
      "\\centering",
      "\\begin\x7badjustbox\x7d\x7bcenter, max width=" ++
        o.adjustbox_width ++
        ", max height=0.8\\textheight, keepaspectratio\x7d",
      "\\pgfdeclarelayer\x7bbackground\x7d",
      "\\pgfdeclarelayer\x7bforeground\x7d",
      "\\pgfsetlayers\x7bbackground,main,foreground\x7d",
      "\\begin\x7btikzpicture\x7d[",
      "    scale=1.0,",
      "    transform shape,",
      "    font=\\footnotesize\\sffamily," ]

/-- The per-category style block of `_generate_styles`
(latex_generator.py lines 113-130); one multi-line string per
category, as in the source. -/
def categoryStyleDef (v : VisualConfig) (cat color : String) : String :=
  let border_color := baseColor color ++ "!60!black"
  "    " ++ cat ++ "/.style=\x7b\n" ++
  "        fill=" ++ color ++ ", draw=" ++ border_color ++
  ", line width=" ++ v.line_width ++ ",\n" ++
  "        rounded corners=" ++ v.rounded_corners ++
  ", minimum width=" ++ v.node_width ++
  ", minimum height=" ++ v.node_height ++ ",\n" ++
  "        align=center, font=" ++ v.node_font ++
  ", text=black!80, inner sep=" ++ v.inner_sep ++ "\n" ++
  "    \x7d,"

/-- `LaTeXGenerator._generate_styles` given the freshly computed
category-color mapping (the source stores it in
`self.category_colors`; here it is passed in and the caller records
it in the state). -/
def generate_styles (v : VisualConfig) (c : ColorConfig)
    (a : ArrowConfig) (m : List (String × String))
    (categories : List String) : String :=
  String.intercalate "\n"
    ([ "    % ========================================",
       "    % Category color definitions",
       "    % ========================================" ] ++
     (sortStr categories).map
       (fun cat => categoryStyleDef v cat (colorOf m cat)) ++
     [ "    year/.style=\x7b",
       "        circle, fill=white, draw=black,",
       "        line width=1.2pt,",
       "        minimum size=0.75cm, font=\\bfseries\\footnotesize, inner sep=0pt",
       "    \x7d,",
       "    axis/.style=\x7b",
       "        line width=1.5pt, draw=" ++ c.axis_color,
       "    \x7d,",
       "    arrow/.style=\x7b",
       "        " ++ a.arrow_style ++ ",",
       "        line width=0.8pt,",
       "        draw=" ++ a.arrow_color ++ ",",
       "        shorten >=" ++ a.arrow_shorten ++ ",",
       "        shorten <=" ++ a.arrow_shorten,
       "    \x7d,",
       "    spine/.style=\x7b",
       "        line width=0.8pt, draw=gray!50, -",
       "    \x7d,",
       "    conn/.style=\x7b",
       "        line width=0.5pt, draw=" ++ c.conn_color,
       "    \x7d,",
       "    methodmatrix/.style=\x7b",
       "        matrix of nodes, row sep=4pt, column sep=3pt,",
       "        nodes in empty cells, inner sep=0pt",
       "    \x7d",
       "]" ])

/-- `LaTeXGenerator._format_method_text`. -/
def format_method_text (v : VisualConfig) (name ref : String) :
    String :=
  let ref_cmd :=
    "\x7b" ++ v.ref_font ++ "\\cite\x7b" ++ ref ++ "\x7d\x7d"
  if v.max_lines = 1 then name ++ "~" ++ ref_cmd
  else name ++ "\\\\[-2pt]" ++ ref_cmd

/-- `LaTeXGenerator._generate_timeline_axis`. -/
def generate_timeline_axis (showQ : ℚ → String) (lp : LayoutParams) :
    String :=
  String.intercalate "\n"
    ([ "    % ========================================",
       "    % 1. Draw timeline axis and define year coordinates",
       "    % ========================================",
       "    \\draw[axis] (0,0) -- (" ++ showQ lp.total_width ++ ",0);",
       "",
       "    % Define year positions" ] ++
     lp.years.map (fun year =>
       "    \\coordinate (Y" ++ toString year ++ ") at (" ++
       showQ ((lp.positions.lookup year).getD 0) ++ ",0);") ++
     (if lp.years.length > 1 then
       [ "",
         "    % Draw arrows between year nodes",
         "    \\foreach \\year/\\nextyear in \x7b" ++
           String.intercalate ","
             ((lp.years.zip lp.years.tail).map (fun p =>
               toString p.1 ++ "/" ++ toString p.2)) ++
           "\x7d \x7b",
         "        \\draw[arrow] (Y\\year) -- (Y\\nextyear);",
         "    \x7d" ]
     else []))

/-- The single-record emission of `_generate_method_nodes` (lines
254-266): one styled node. -/
def singleNodeLine (v : VisualConfig) (showQ : ℚ → String)
    (side : String) (branch : ℚ) (year : Int) (r : Record) : String :=
  let text := format_method_text v r.name r.citeKey
  let anchor := if side = "above" then "above" else "below"
  "    \\node[" ++ r.category ++ ", " ++ anchor ++ "=" ++
  showQ branch ++ "cm of Y" ++ toString year ++ "] (M" ++
  toString year ++ ") \x7b" ++ text ++ "\x7d;"

/-- A matrix cell followed by a column separator (`node1` of the
multi-column branch, lines 299): `\node[style] {text}; &`. -/
def cellAmp (v : VisualConfig) (r : Record) : String :=
  "        \\node[" ++ r.category ++ "] \x7b" ++
  format_method_text v r.name r.citeKey ++ "\x7d; &"

/-- A matrix cell ending its row (`node2` / the single-cell branch,
lines 300-307): `\node[style] {text}; \\`. -/
def cellBreak (v : VisualConfig) (r : Record) : String :=
  "        \\node[" ++ r.category ++ "] \x7b" ++
  format_method_text v r.name r.citeKey ++ "\x7d; \\\\"

/-- One iteration of the matrix-cell loop of
`_generate_method_nodes` (lines 281-308): the lines emitted for
index `idx` of group `g`. -/
def cellEmit (v : VisualConfig) (g : List Record) (idx : Nat) :
    List String :=
  match g.get? idx with
  | none => []
  | some row =>
    let multi_col :=
      g.length > 3 ∧ idx % 2 = 0 ∧ idx < g.length - 1
    if multi_col then
      match g.get? (idx + 1) with
      | some next_row => [cellAmp v row, cellBreak v next_row]
      | none => []
    else if ¬(g.length > 3 ∧ idx % 2 = 1) then
      [cellBreak v row]
    else []

/-- All matrix-cell lines for a year's group: the loop
`for idx, (_, row) in enumerate(group.iterrows())`. -/
def matrixCellLines (v : VisualConfig) (g : List Record) :
    List String :=
  (List.range g.length).flatMap (cellEmit v g)

/-- The lines emitted by `_generate_method_nodes` for one year
(lines 250-310): the comment header, then either a single node or a
matrix container with its cells. -/
def yearBlock (v : VisualConfig) (showQ : ℚ → String) (side : String)
    (branch : ℚ) (year : Int) (g : List Record) : List String :=
  let side_mark := if side = "above" then "upper" else "lower"
  let header :=
    [ "", "    % --- " ++ toString year ++ " (" ++ side_mark ++
        ") ---" ]
  if g.length = 1 then
    header ++
      (match g with
       | r :: _ => [singleNodeLine v showQ side branch year r]
       | [] => [])
  else
    let anchor := if side = "above" then "south" else "north"
    let position := if side = "above" then "above" else "below"
    header ++
      [ "    \\matrix[methodmatrix, " ++ position ++ "=" ++
          showQ branch ++ "cm of Y" ++ toString year ++
          ", anchor=" ++ anchor ++ "] (M" ++ toString year ++
          ") \x7b" ] ++
      matrixCellLines v g ++
      [ "    \x7d;" ]

/-- `LaTeXGenerator._generate_method_nodes` (lines 230-312).
`yearOrder` is the engine state read by `determine_side`. -/
def generate_method_nodes (v : VisualConfig) (tc : TimeLogicConfig)
    (showQ : ℚ → String) (yearOrder : List Int) (df : List Record)
    (lp : LayoutParams) : String :=
  String.intercalate "\n"
    ([ "",
       "    % ========================================",
       "    % 2. Define all method nodes",
       "    % ========================================" ] ++
     (sortInt (uniqueFirst (df.map (fun r => r.year)))).flatMap
       (fun year =>
         yearBlock v showQ (determine_side tc yearOrder year)
           lp.adjusted_branch year (rowsOfYear df year)))

/-- `LaTeXGenerator._generate_background_layer` (lines 314-361). -/
def generate_background_layer (l : LayoutConfig)
    (tc : TimeLogicConfig) (showQ : ℚ → String)
    (yearOrder : List Int) (df : List Record) : String :=
  let years := sortInt (uniqueFirst (df.map (fun r => r.year)))
  let years_str := String.intercalate "," (years.map toString)
  String.intercalate "\n"
    ([ "",
       "    % ========================================",
       "    % 3. Draw all connections in background layer",
       "    % ========================================",
       "    \\begin\x7bpgfonlayer\x7d\x7bbackground\x7d",
       "        % Year node spines",
       "        \\foreach \\year in \x7b" ++ years_str ++
         "\x7d \x7b",
       "            \\draw[spine] (Y\\year.north) -- ++(0," ++
         showQ l.spine_length ++ ");",
       "            \\draw[spine] (Y\\year.south) -- ++(0,-" ++
         showQ l.spine_length ++ ");",
       "        \x7d",
       "",
       "        % Connect methods to year nodes" ] ++
     years.map (fun year =>
       if determine_side tc yearOrder year = "above" then
         "        \\draw[conn] (M" ++ toString year ++
         ".south) -- ([yshift=" ++ showQ l.spine_length ++
         "cm]Y" ++ toString year ++ ");"
       else
         "        \\draw[conn] (M" ++ toString year ++
         ".north) -- ([yshift=-" ++ showQ l.spine_length ++
         "cm]Y" ++ toString year ++ ");") ++
     [ "    \\end\x7bpgfonlayer\x7d" ])

/-- `LaTeXGenerator._generate_year_nodes` (lines 363-378). -/
def generate_year_nodes (df : List Record) : String :=
  let years := sortInt (uniqueFirst (df.map (fun r => r.year)))
  let years_str := String.intercalate "," (years.map toString)
  String.intercalate "\n"
    [ "",
      "    % ========================================",
      "    % 4. Draw year nodes on top layer",
      "    % ========================================",
      "    \\foreach \\year in \x7b" ++ years_str ++ "\x7d \x7b",
      "        \\node[year] at (Y\\year) \x7b\\year\x7d;",
      "    \x7d" ]

/-- `LaTeXGenerator._generate_bounding_box`. -/
def generate_bounding_box : String :=
  "\n" ++
  "    % ========================================\n" ++
  "    % 5. Extend bounding box\n" ++
  "    % ========================================\n" ++
  "    \\path (current bounding box.south west) +(-0.3,-0.5) " ++
  "(current bounding box.north east) +(0.3,0.5);"

/-- One legend swatch of `_generate_caption` (lines 415-424). -/
def legendPart (m : List (String × String)) (category : String) :
    String :=
  let fill_color := colorOf m category
  let base_col :=
    if fill_color.contains '!' then
      ((fill_color.splitOn ("!")).headD ("")) else fill_color
  let border_color := base_col ++ "!60!black"
  "\x7b\\protect\\tikz[baseline=-0.5ex]\\protect\\node[fill=" ++
  fill_color ++ ",draw=" ++ border_color ++
  ",rounded corners=2pt,inner sep=2pt,font=\\tiny] \x7b" ++
  category ++ "\x7d;\x7d"

/-- `LaTeXGenerator._generate_caption` (lines 391-433), reading the
category-color mapping `self.category_colors` computed earlier in the
same call. -/
def generate_caption (o : OutputConfig) (m : List (String × String))
    (categories : List String) : String :=
  String.intercalate "\n"
    ([ "\\end\x7btikzpicture\x7d",
       "\\end\x7badjustbox\x7d",
       "\\caption\x7b" ++ o.caption ++ "。" ] ++
     (if o.show_legend then
       [ (sortStr categories).foldl
           (fun acc cat => acc ++ legendPart m cat ++ " ")
           ("颜色标识：") ]
     else []) ++
     [ "\x7d\x7d",
       "\\label\x7b" ++ o.label ++ "\x7d",
       "\\end\x7bfigure\x7d" ])

/-- `LaTeXGenerator.generate` (latex_generator.py lines 435-474),
with the instance state threaded explicitly: the input state is the
state left by earlier calls (fresh instance: empty), and the output
state is the state after this call. -/
def generate (showQ : ℚ → String) (cfg : GenConfig)
    (df : List Record) (st : GenState) : String × GenState :=
  let categories := uniqueFirst (df.map (fun r => r.category))
  let lp := calculate_layout cfg.layout df
  let yearOrder := lp.years
  let m := get_category_colors cfg.colors categories
  let parts :=
    [ generate_preamble cfg.output,
      generate_styles cfg.visual cfg.colors cfg.arrows m categories,
      generate_timeline_axis showQ lp,
      generate_method_nodes cfg.visual cfg.time_logic showQ yearOrder
        df lp,
      generate_background_layer cfg.layout cfg.time_logic showQ
        yearOrder df,
      generate_year_nodes df,
      generate_bounding_box,
      generate_caption cfg.output m categories ]
  (String.intercalate "\n" parts,
   { category_colors := m, year_order := yearOrder })

/-!
Claim-side definitions: observation predicates on emitted lines and
the two-per-row pairing described by the spec.
-/

/-- A styled method-node emission: a line that is a single node
(4-space indent) or a matrix cell (8-space indent). -/
def lineIsNode (l : String) : Bool :=
  (("    \\node[").data).isPrefixOf l.data ||
  (("        \\node[").data).isPrefixOf l.data

/-- A matrix-container emission (the `\matrix[...] {` opening
line). -/
def lineIsMatrix (l : String) : Bool :=
  (("    \\matrix[").data).isPrefixOf l.data

/-- The spec's pairing of matrix cells two-per-row: each even-indexed
cell is paired with the next odd-indexed cell (`&` then `\\`); a
trailing unpaired cell ends its own row. -/
def pairedCellLines (v : VisualConfig) : List Record → List String
  | [] => []
  | [r] => [cellBreak v r]
  | r1 :: r2 :: rest =>
    cellAmp v r1 :: cellBreak v r2 :: pairedCellLines v rest

/-!
Concrete fixtures used by witnesses and counterexamples.
-/

/-- A one-record dataset. -/
def dfOne : List Record :=
  [ { year := 2020, category := "a", name := "M1", citeKey := "R1" } ]

/-- The three-record end-to-end dataset of the spec's testable
properties. -/
def dfThree : List Record :=
  [ { year := 2020, category := "a", name := "M1", citeKey := "R1" },
    { year := 2021, category := "b", name := "M2", citeKey := "R2" },
    { year := 2022, category := "a", name := "M3", citeKey := "R3" } ]

/-- A dataset whose year 2022 holds four records (and 2020 one). -/
def dfFour : List Record :=
  [ { year := 2020, category := "a", name := "M0", citeKey := "R0" },
    { year := 2022, category := "a", name := "M1", citeKey := "R1" },
    { year := 2022, category := "b", name := "M2", citeKey := "R2" },
    { year := 2022, category := "a", name := "M3", citeKey := "R3" },
    { year := 2022, category := "b", name := "M4", citeKey := "R4" } ]

/-- Default layout values with smart spacing enabled. -/
def lcSmart : LayoutConfig :=
  { timeline_width := "16cm", year_spacing := 27/10,
    branch_distance := 6/5, spine_length := 2/5,
    smart_spacing := true, min_year_spacing := 2 }

/-- Default layout values (smart spacing disabled). -/
def lcPlain : LayoutConfig :=
  { timeline_width := "16cm", year_spacing := 27/10,
    branch_distance := 6/5, spine_length := 2/5,
    smart_spacing := false, min_year_spacing := 2 }

/-- Smart spacing enabled with `min_year_spacing > year_spacing`
(nothing in the code or its validators forbids this). -/
def lcBad : LayoutConfig :=
  { timeline_width := "16cm", year_spacing := 27/10,
    branch_distance := 6/5, spine_length := 2/5,
    smart_spacing := true, min_year_spacing := 5 }

/-- A time-logic config with the given `upper_years` rule. -/
def tcRule (r : Option String) : TimeLogicConfig :=
  { time_direction := "right", start_year := 2019, end_year := 2025,
    upper_years := r, lower_years := "even" }

/-- Default visual values. -/
def vcFix : VisualConfig :=
  { node_width := "2.6cm", node_height := "0.5cm",
    node_font := "\\tiny\\bfseries", ref_font := "\\tiny",
    inner_sep := "1.5pt", line_width := "0.8pt",
    rounded_corners := "3pt", max_lines := 1 }

/-- Default color values. -/
def ccFix : ColorConfig :=
  { color_single := "cyan!20", color_multi := "green!20",
    color_adaptive := "yellow!40", color_vl := "purple!20",
    color_dense := "orange!30", color_attention := "red!20",
    color_hybrid := "gray!30", axis_color := "black!70",
    conn_color := "gray!60" }

/-!
Helper lemmas.
-/

theorem calculate_layout_adjusted_spacing (cfg : LayoutConfig)
    (df : List Record) :
    (calculate_layout cfg df).adjusted_spacing =
      if cfg.smart_spacing then
        max cfg.min_year_spacing
          (min ((maxNodes df : ℚ) * (5 / 2)) cfg.year_spacing)
      else cfg.year_spacing := rfl

theorem calculate_layout_adjusted_branch (cfg : LayoutConfig)
    (df : List Record) :
    (calculate_layout cfg df).adjusted_branch =
      if cfg.smart_spacing then
        max cfg.branch_distance ((maxNodes df : ℚ) * (3 / 5))
      else cfg.branch_distance := rfl

/-!
Claims C2, C9, C3.
-/

/-- C2: for every non-empty dataset, with smart spacing enabled
`calculate_layout` sets `adjusted_spacing` to
`max(min_year_spacing, min(max_nodes * 2.5, year_spacing))`, the
clamp of `max_nodes * 2.5` into the configured band; with smart
spacing disabled it equals `year_spacing` exactly. -/
theorem claim_C2_adjusted_spacing (cfg : LayoutConfig)
    (df : List Record) (hne : df ≠ []) :
    (cfg.smart_spacing = true →
      (calculate_layout cfg df).adjusted_spacing =
        max cfg.min_year_spacing
          (min ((maxNodes df : ℚ) * (5 / 2)) cfg.year_spacing)) ∧
    (cfg.smart_spacing = false →
      (calculate_layout cfg df).adjusted_spacing = cfg.year_spacing) := by
  refine ⟨fun h => ?_, fun h => ?_⟩ <;>
    simp [calculate_layout_adjusted_spacing, h]

theorem claim_C2_witness :
    dfOne ≠ [] ∧
    (calculate_layout lcSmart dfOne).adjusted_spacing = 5 / 2 ∧
    (calculate_layout lcPlain dfOne).adjusted_spacing = 27 / 10 := by
  have h1 := (claim_C2_adjusted_spacing lcSmart dfOne
    (List.cons_ne_nil _ _)).1 rfl
  have h2 := (claim_C2_adjusted_spacing lcPlain dfOne
    (List.cons_ne_nil _ _)).2 rfl
  refine ⟨List.cons_ne_nil _ _, ?_, ?_⟩
  · rw [h1]
    have hm : maxNodes dfOne = 1 := by decide
    rw [hm]
    norm_num [lcSmart]
  · rw [h2]
    norm_num [lcPlain]

/-- C9: for every non-empty dataset, `adjusted_branch` never falls
below the configured `branch_distance`, and with smart spacing
enabled it also dominates `max_nodes * 0.6` and equals the maximum of
the two. -/
theorem claim_C9_adjusted_branch (cfg : LayoutConfig)
    (df : List Record) (hne : df ≠ []) :
    cfg.branch_distance ≤ (calculate_layout cfg df).adjusted_branch ∧
    (cfg.smart_spacing = true →
      (maxNodes df : ℚ) * (3 / 5) ≤
        (calculate_layout cfg df).adjusted_branch ∧
      (calculate_layout cfg df).adjusted_branch =
        max cfg.branch_distance ((maxNodes df : ℚ) * (3 / 5))) := by
  rw [calculate_layout_adjusted_branch]
  cases hs : cfg.smart_spacing with
  | false => simp
  | true => simp [le_max_left, le_max_right]

theorem claim_C9_witness :
    dfOne ≠ [] ∧
    lcSmart.branch_distance ≤
      (calculate_layout lcSmart dfOne).adjusted_branch ∧
    (calculate_layout lcSmart dfOne).adjusted_branch =
      max lcSmart.branch_distance ((maxNodes dfOne : ℚ) * (3 / 5)) := by
  have h := claim_C9_adjusted_branch lcSmart dfOne
    (List.cons_ne_nil _ _)
  exact ⟨List.cons_ne_nil _ _, h.1, (h.2 rfl).2⟩

/-- C3 counterexample: the claim asserts
`adjusted_spacing ∈ [min_year_spacing, year_spacing]` for every
layout configuration with smart spacing enabled; with
`min_year_spacing = 5 > year_spacing = 2.7` (a configuration nothing
rejects) the computed spacing exceeds `year_spacing`. -/
theorem claim_C3_counterexample :
    lcBad.smart_spacing = true ∧
    ¬ ((calculate_layout lcBad dfOne).adjusted_spacing ≤
        lcBad.year_spacing) := by
  refine ⟨rfl, ?_⟩
  have h := (claim_C2_adjusted_spacing lcBad dfOne
    (List.cons_ne_nil _ _)).1 rfl
  have hm : maxNodes dfOne = 1 := by decide
  rw [h, hm]
  norm_num [lcBad]

/-- C3 amended: with smart spacing enabled `adjusted_spacing` is
always at least `min_year_spacing`, and it is at most `year_spacing`
provided the configuration satisfies
`min_year_spacing ≤ year_spacing`; with smart spacing disabled it
equals `year_spacing` exactly. -/
theorem claim_C3_amended_bounds (cfg : LayoutConfig)
    (df : List Record) :
    (cfg.smart_spacing = true →
      cfg.min_year_spacing ≤
        (calculate_layout cfg df).adjusted_spacing ∧
      (cfg.min_year_spacing ≤ cfg.year_spacing →
        (calculate_layout cfg df).adjusted_spacing ≤
          cfg.year_spacing)) ∧
    (cfg.smart_spacing = false →
      (calculate_layout cfg df).adjusted_spacing = cfg.year_spacing) := by
  rw [calculate_layout_adjusted_spacing]
  cases hs : cfg.smart_spacing with
  | false => simp
  | true =>
    refine ⟨fun _ => ⟨by simp [le_max_left], fun hmin => ?_⟩,
      by simp⟩
    simp only [if_pos]
    exact max_le hmin (min_le_right _ _)

theorem uniqueFirst_go_mem {α : Type} [DecidableEq α] :
    ∀ (l seen : List α) (x : α),
      x ∈ uniqueFirst.go seen l → x ∈ l ∧ x ∉ seen
  | [], seen, x, h => by simp [uniqueFirst.go] at h
  | y :: ys, seen, x, h => by
    by_cases hy : y ∈ seen
    · simp only [uniqueFirst.go, if_pos hy] at h
      have hr := uniqueFirst_go_mem ys seen x h
      exact ⟨List.mem_cons_of_mem _ hr.1, hr.2⟩
    · simp only [uniqueFirst.go, if_neg hy, List.mem_cons] at h
      rcases h with h | h
      · subst h
        exact ⟨List.mem_cons_self _ _, hy⟩
      · have hr := uniqueFirst_go_mem ys (y :: seen) x h
        exact ⟨List.mem_cons_of_mem _ hr.1,
          fun hx => hr.2 (List.mem_cons_of_mem _ hx)⟩

theorem uniqueFirst_go_nodup {α : Type} [DecidableEq α] :
    ∀ (l seen : List α), (uniqueFirst.go seen l).Nodup
  | [], _ => by simp [uniqueFirst.go]
  | y :: ys, seen => by
    by_cases hy : y ∈ seen
    · simpa only [uniqueFirst.go, if_pos hy] using
        uniqueFirst_go_nodup ys seen
    · simp only [uniqueFirst.go, if_neg hy, List.nodup_cons]
      refine ⟨fun hmem => ?_, uniqueFirst_go_nodup ys (y :: seen)⟩
      exact (uniqueFirst_go_mem ys (y :: seen) y hmem).2
        (List.mem_cons_self _ _)

theorem uniqueFirst_nodup {α : Type} [DecidableEq α] (l : List α) :
    (uniqueFirst l).Nodup :=
  uniqueFirst_go_nodup l []

theorem sortInt_perm (l : List Int) : (sortInt l).Perm l :=
  List.perm_insertionSort _ l

theorem sortInt_nodup {l : List Int} (h : l.Nodup) :
    (sortInt l).Nodup :=
  ((sortInt_perm l).nodup_iff).mpr h

theorem sortInt_sorted (l : List Int) :
    (sortInt l).Sorted (fun a b => a ≤ b) :=
  List.sorted_insertionSort _ l

theorem calculate_layout_years (cfg : LayoutConfig)
    (df : List Record) :
    (calculate_layout cfg df).years =
      sortInt (uniqueFirst (df.map (fun r => r.year))) := rfl

theorem calculate_layout_years_nodup (cfg : LayoutConfig)
    (df : List Record) : (calculate_layout cfg df).years.Nodup := by
  rw [calculate_layout_years]
  exact sortInt_nodup (uniqueFirst_nodup _)

theorem calculate_layout_years_sorted (cfg : LayoutConfig)
    (df : List Record) :
    (calculate_layout cfg df).years.Sorted (fun a b => a < b) := by
  have hle := sortInt_sorted (uniqueFirst (df.map (fun r => r.year)))
  have hnd := calculate_layout_years_nodup cfg df
  rw [calculate_layout_years] at hnd ⊢
  exact (hle.and hnd).imp (fun h => lt_of_le_of_ne h.1 h.2)

theorem calculate_layout_positions (cfg : LayoutConfig)
    (df : List Record) :
    (calculate_layout cfg df).positions =
      (calculate_layout cfg df).years.enum.map
        (fun p => (p.2, (p.1 : ℚ) *
          (calculate_layout cfg df).adjusted_spacing)) := rfl

theorem calculate_layout_total_width (cfg : LayoutConfig)
    (df : List Record) :
    (calculate_layout cfg df).total_width =
      if (calculate_layout cfg df).years.length > 1 then
        (((calculate_layout cfg df).years.length : ℚ) - 1) *
          (calculate_layout cfg df).adjusted_spacing
      else 0 := rfl

theorem lookup_enumFrom_map {α β : Type} [BEq α] [LawfulBEq α]
    (g : Nat → α → β) :
    ∀ (ys : List α), ys.Nodup → ∀ (n i : Nat) (h : i < ys.length),
      (((ys.enumFrom n).map (fun p => (p.2, g p.1 p.2))).lookup
        (ys.get ⟨i, h⟩)) = some (g (n + i) (ys.get ⟨i, h⟩)) := by
  intro ys
  induction ys with
  | nil => intro _ n i h; simp at h
  | cons y ys ih =>
    intro hnd n i h
    rcases List.nodup_cons.mp hnd with ⟨hy, hnd2⟩
    cases i with
    | zero => simp [List.enumFrom, List.lookup]
    | succ i =>
      have hlt : i < ys.length := Nat.lt_of_succ_lt_succ h
      have hget : (y :: ys).get ⟨i + 1, h⟩ = ys.get ⟨i, hlt⟩ := rfl
      have hne : (ys.get ⟨i, hlt⟩ == y) = false := by
        rw [beq_eq_false_iff_ne]
        intro e
        exact hy (e ▸ List.get_mem ys i hlt)
      rw [hget]
      simp only [List.enumFrom, List.map_cons, List.lookup, hne]
      rw [ih hnd2 (n + 1) i hlt]
      have harith : n + 1 + i = n + (i + 1) := by omega
      rw [harith]

/-- C4: for every non-empty dataset, the years of the layout are the
distinct years sorted strictly ascending, the position of the i-th
year is `i * adjusted_spacing` (uniform step, strictly increasing
for positive spacing), and `total_width` is
`(n - 1) * adjusted_spacing` for `n > 1` years and `0` otherwise. -/
theorem claim_C4_positions (cfg : LayoutConfig) (df : List Record)
    (hne : df ≠ []) :
    (calculate_layout cfg df).years.Sorted (fun a b => a < b) ∧
    (∀ i (h : i < (calculate_layout cfg df).years.length),
      ((calculate_layout cfg df).positions.lookup
        ((calculate_layout cfg df).years.get ⟨i, h⟩)) =
        some ((i : ℚ) * (calculate_layout cfg df).adjusted_spacing)) ∧
    (0 < (calculate_layout cfg df).adjusted_spacing →
      ∀ i j (hi : i < (calculate_layout cfg df).years.length)
        (hj : j < (calculate_layout cfg df).years.length), i < j →
        (((calculate_layout cfg df).positions.lookup
          ((calculate_layout cfg df).years.get ⟨i, hi⟩)).getD 0 <
         ((calculate_layout cfg df).positions.lookup
          ((calculate_layout cfg df).years.get ⟨j, hj⟩)).getD 0)) ∧
    (1 < (calculate_layout cfg df).years.length →
      (calculate_layout cfg df).total_width =
        (((calculate_layout cfg df).years.length : ℚ) - 1) *
          (calculate_layout cfg df).adjusted_spacing) ∧
    ((calculate_layout cfg df).years.length ≤ 1 →
      (calculate_layout cfg df).total_width = 0) := by
  have hnd := calculate_layout_years_nodup cfg df
  have hpos : ∀ i (h : i < (calculate_layout cfg df).years.length),
      ((calculate_layout cfg df).positions.lookup
        ((calculate_layout cfg df).years.get ⟨i, h⟩)) =
        some ((i : ℚ) * (calculate_layout cfg df).adjusted_spacing) := by
    intro i h
    rw [calculate_layout_positions]
    have := lookup_enumFrom_map
      (fun i _ => (i : ℚ) * (calculate_layout cfg df).adjusted_spacing)
      (calculate_layout cfg df).years hnd 0 i h
    simpa [List.enum] using this
  refine ⟨calculate_layout_years_sorted cfg df, hpos, ?_, ?_, ?_⟩
  · intro hs i j hi hj hij
    rw [hpos i hi, hpos j hj]
    simp only [Option.getD_some]
    exact mul_lt_mul_of_pos_right (by exact_mod_cast hij) hs
  · intro h
    rw [calculate_layout_total_width, if_pos h]
  · intro h
    rw [calculate_layout_total_width,
      if_neg (by omega : ¬ (calculate_layout cfg df).years.length > 1)]

theorem claim_C4_witness :
    (calculate_layout lcPlain dfThree).positions.lookup 2021 =
      some (27 / 10) ∧
    (calculate_layout lcPlain dfThree).total_width = 27 / 5 := by
  have h := claim_C4_positions lcPlain dfThree (List.cons_ne_nil _ _)
  have hyears : (calculate_layout lcPlain dfThree).years =
      [2020, 2021, 2022] := by decide
  have hlen : (calculate_layout lcPlain dfThree).years.length = 3 := by
    rw [hyears]; rfl
  have hget : (calculate_layout lcPlain dfThree).years.get
      ⟨1, by omega⟩ = 2021 := by
    rw [List.get_eq_getElem]
    simp [hyears]
  have hsp : (calculate_layout lcPlain dfThree).adjusted_spacing =
      27 / 10 := by
    rw [calculate_layout_adjusted_spacing]
    norm_num [lcPlain]
  constructor
  · have h2 := h.2.1 1 (by omega)
    rw [hget, hsp] at h2
    rw [h2]
    norm_num
  · have h4 := h.2.2.2.1 (by omega)
    rw [hlen, hsp] at h4
    rw [h4]
    norm_num

theorem claim_C3_amended_witness :
    lcSmart.smart_spacing = true ∧
    lcSmart.min_year_spacing ≤
      (calculate_layout lcSmart dfOne).adjusted_spacing ∧
    (calculate_layout lcSmart dfOne).adjusted_spacing ≤
      lcSmart.year_spacing := by
  have h := (claim_C3_amended_bounds lcSmart dfOne).1 rfl
  refine ⟨rfl, h.1, h.2 ?_⟩
  norm_num [lcSmart]

/-!
Claims C5, C6, C10: the side-assignment rule.
-/

theorem pyIndexOr0_go_eq :
    ∀ (l : List Int) (x : Int), pyIndexOr0.go l x = l.indexOf x
  | [], x => by simp [pyIndexOr0.go, List.indexOf]
  | y :: ys, x => by
    by_cases h : y = x <;>
      simp [pyIndexOr0.go, List.indexOf_cons, h, pyIndexOr0_go_eq ys x]

theorem pyIndexOr0_eq (yo : List Int) (x : Int) :
    pyIndexOr0 yo x = if x ∈ yo then yo.indexOf x else 0 := by
  unfold pyIndexOr0
  rw [pyIndexOr0_go_eq]

theorem orderSide_eq_above (yo : List Int) (x : Int) :
    (orderSide yo x = "above" ↔ Even (pyIndexOr0 yo x)) := by
  unfold orderSide
  by_cases h : pyIndexOr0 yo x % 2 = 0 <;>
    simp [h, Nat.even_iff]

theorem orderSide_cases (yo : List Int) (x : Int) :
    orderSide yo x = "above" ∨ orderSide yo x = "below" := by
  unfold orderSide
  by_cases h : pyIndexOr0 yo x % 2 = 0 <;> simp [h]

theorem determine_sideW_order (tc : TimeLogicConfig) (yo : List Int)
    (year : Int)
    (h : upperRule tc = "order" ∨ upperRule tc = "sequence" ∨
      upperRule tc = "index") :
    determine_sideW tc yo year =
      (orderSide (if yo = [] then [year] else yo) year, false) := by
  unfold upperRule at h
  unfold determine_sideW
  rw [if_pos h]

theorem determine_sideW_odd (tc : TimeLogicConfig) (yo : List Int)
    (year : Int) (h : upperRule tc = "odd") :
    determine_sideW tc yo year =
      ((if year % 2 = 1 then "above" else "below"), false) := by
  unfold upperRule at h
  unfold determine_sideW
  rw [h, if_neg (show ¬("odd" = "order" ∨ "odd" = "sequence" ∨
    "odd" = "index") by decide), if_pos rfl]

theorem determine_sideW_even (tc : TimeLogicConfig) (yo : List Int)
    (year : Int) (h : upperRule tc = "even") :
    determine_sideW tc yo year =
      ((if year % 2 = 0 then "above" else "below"), false) := by
  unfold upperRule at h
  unfold determine_sideW
  rw [h, if_neg (show ¬("even" = "order" ∨ "even" = "sequence" ∨
    "even" = "index") by decide),
    if_neg (show ¬("even" = "odd") by decide), if_pos rfl]

theorem determine_sideW_list (tc : TimeLogicConfig) (yo : List Int)
    (year : Int) (l : List Int)
    (h1 : ¬(upperRule tc = "order" ∨ upperRule tc = "sequence" ∨
      upperRule tc = "index"))
    (h2 : upperRule tc ≠ "odd") (h3 : upperRule tc ≠ "even")
    (hl : parseYearList (upperRule tc) = some l) :
    determine_sideW tc yo year =
      ((if year ∈ l then "above" else "below"), false) := by
  unfold upperRule at h1 h2 h3 hl
  unfold determine_sideW
  rw [if_neg h1, if_neg h2, if_neg h3, hl]

theorem determine_sideW_fallback (tc : TimeLogicConfig)
    (yo : List Int) (year : Int)
    (h1 : ¬(upperRule tc = "order" ∨ upperRule tc = "sequence" ∨
      upperRule tc = "index"))
    (h2 : upperRule tc ≠ "odd") (h3 : upperRule tc ≠ "even")
    (hl : parseYearList (upperRule tc) = none) :
    determine_sideW tc yo year =
      (orderSide (if yo = [] then [year] else yo) year, true) := by
  unfold upperRule at h1 h2 h3 hl
  unfold determine_sideW
  rw [if_neg h1, if_neg h2, if_neg h3, hl]

/-- C5: `determine_side` implements the rule selected by the
lower-cased `upper_years`: for "order"/"sequence"/"index" the side is
"above" iff the year's zero-based index in the year order (0 when
absent) is even; for "odd"/"even" iff the year is odd/even; otherwise
the rule parses as a comma-separated integer list and the side is
"above" iff the year is listed.  The concrete cases of the spec's
testable properties are included. -/
theorem claim_C5_side_rules (tc : TimeLogicConfig) (yo : List Int)
    (year : Int) :
    ((upperRule tc = "order" ∨ upperRule tc = "sequence" ∨
        upperRule tc = "index") →
      (determine_side tc yo year = "above" ↔
        Even (if year ∈ yo then yo.indexOf year else 0))) ∧
    (upperRule tc = "odd" →
      (determine_side tc yo year = "above" ↔ Odd year)) ∧
    (upperRule tc = "even" →
      (determine_side tc yo year = "above" ↔ Even year)) ∧
    (¬(upperRule tc = "order" ∨ upperRule tc = "sequence" ∨
        upperRule tc = "index") →
      upperRule tc ≠ "odd" → upperRule tc ≠ "even" →
      ∀ l, parseYearList (upperRule tc) = some l →
        (determine_side tc yo year = "above" ↔ year ∈ l)) ∧
    (determine_side (tcRule (some "odd")) yo 2021 = "above" ∧
     determine_side (tcRule (some "odd")) yo 2020 = "below" ∧
     determine_side (tcRule (some "even")) yo 2020 = "above" ∧
     determine_side (tcRule (some "even")) yo 2021 = "below" ∧
     determine_side (tcRule (some "2020,2022")) yo 2020 = "above" ∧
     determine_side (tcRule (some "2020,2022")) yo 2021 = "below" ∧
     determine_side (tcRule (some "2020,2022")) yo 2022 = "above") := by
  refine ⟨?_, ?_, ?_, ?_, ?_, ?_, ?_, ?_, ?_, ?_, ?_⟩
  · intro h
    rw [determine_side, determine_sideW_order tc yo year h]
    rw [orderSide_eq_above, pyIndexOr0_eq]
    by_cases hyo : yo = []
    · subst hyo
      simp
    · rw [if_neg hyo]
  · intro h
    rw [determine_side, determine_sideW_odd tc yo year h]
    by_cases hp : year % 2 = 1 <;> simp [hp, Int.odd_iff]
  · intro h
    rw [determine_side, determine_sideW_even tc yo year h]
    by_cases hp : year % 2 = 0 <;> simp [hp, Int.even_iff]
  · intro h1 h2 h3 l hl
    rw [determine_side, determine_sideW_list tc yo year l h1 h2 h3 hl]
    by_cases hm : year ∈ l <;> simp [hm]
  · rw [determine_side,
      determine_sideW_odd (tcRule (some "odd")) yo 2021 (by decide)]
    norm_num
  · rw [determine_side,
      determine_sideW_odd (tcRule (some "odd")) yo 2020 (by decide)]
    norm_num
  · rw [determine_side,
      determine_sideW_even (tcRule (some "even")) yo 2020 (by decide)]
    norm_num
  · rw [determine_side,
      determine_sideW_even (tcRule (some "even")) yo 2021 (by decide)]
    norm_num
  · rw [determine_side, determine_sideW_list (tcRule (some "2020,2022"))
      yo 2020 [2020, 2022] (by decide) (by decide) (by decide)
      (by decide)]
    norm_num
  · rw [determine_side, determine_sideW_list (tcRule (some "2020,2022"))
      yo 2021 [2020, 2022] (by decide) (by decide) (by decide)
      (by decide)]
    norm_num
  · rw [determine_side, determine_sideW_list (tcRule (some "2020,2022"))
      yo 2022 [2020, 2022] (by decide) (by decide) (by decide)
      (by decide)]
    norm_num

theorem claim_C5_witness :
    determine_side (tcRule (some "order")) [2020, 2021, 2022] 2022 =
      "above" ∧
    determine_side (tcRule (some "2020,2022")) [] 2020 = "above" := by
  constructor
  · exact ((claim_C5_side_rules (tcRule (some "order"))
      [2020, 2021, 2022] 2022).1 (by decide)).mpr
      (Nat.even_iff.mpr (by decide))
  · exact ((claim_C5_side_rules (tcRule (some "2020,2022"))
      [] 2020).2.2.2.1 (by decide) (by decide) (by decide)
      [2020, 2022] (by decide)).mpr (by decide)

/-- C6: `determine_side` is total — it always returns "above" or
"below" — and when the rule is none of the keywords and fails to
parse as a comma-separated integer list, it falls back to the
index-parity ("order") behavior with the warning flag set, never
aborting. -/
theorem claim_C6_graceful (tc : TimeLogicConfig) (yo : List Int)
    (year : Int) :
    (determine_side tc yo year = "above" ∨
     determine_side tc yo year = "below") ∧
    (¬(upperRule tc = "order" ∨ upperRule tc = "sequence" ∨
        upperRule tc = "index") →
      upperRule tc ≠ "odd" → upperRule tc ≠ "even" →
      parseYearList (upperRule tc) = none →
      determine_sideW tc yo year =
        (orderSide (if yo = [] then [year] else yo) year, true)) := by
  constructor
  · by_cases h1 : upperRule tc = "order" ∨ upperRule tc = "sequence" ∨
      upperRule tc = "index"
    · rw [determine_side, determine_sideW_order tc yo year h1]
      exact orderSide_cases _ _
    · by_cases h2 : upperRule tc = "odd"
      · rw [determine_side, determine_sideW_odd tc yo year h2]
        by_cases hp : year % 2 = 1 <;> simp [hp]
      · by_cases h3 : upperRule tc = "even"
        · rw [determine_side, determine_sideW_even tc yo year h3]
          by_cases hp : year % 2 = 0 <;> simp [hp]
        · cases hl : parseYearList (upperRule tc) with
          | some l =>
            rw [determine_side,
              determine_sideW_list tc yo year l h1 h2 h3 hl]
            by_cases hm : year ∈ l <;> simp [hm]
          | none =>
            rw [determine_side,
              determine_sideW_fallback tc yo year h1 h2 h3 hl]
            exact orderSide_cases _ _
  · intro h1 h2 h3 hl
    exact determine_sideW_fallback tc yo year h1 h2 h3 hl

theorem claim_C6_witness :
    determine_sideW (tcRule (some "not-a-number")) [2020, 2021] 2020 =
      ("above", true) ∧
    (determine_side (tcRule (some "not-a-number")) [2020, 2021] 2020 =
      "above" ∨
     determine_side (tcRule (some "not-a-number")) [2020, 2021] 2020 =
      "below") := by
  have h := claim_C6_graceful (tcRule (some "not-a-number"))
    [2020, 2021] 2020
  refine ⟨?_, h.1⟩
  have h2 := h.2 (by decide) (by decide) (by decide) (by decide)
  rw [h2]
  decide

/-- C10: with an absent (`None`) or empty `upper_years` rule,
`determine_side` returns "below" for every year and emits no warning:
the empty string parses as the empty year list and membership in it
is always false. -/
theorem claim_C10_empty_rule (tc : TimeLogicConfig) (yo : List Int)
    (year : Int)
    (h : tc.upper_years = none ∨ tc.upper_years = some "") :
    determine_sideW tc yo year = ("below", false) := by
  have h0 : pyLower "" = "" := by decide
  have hr : upperRule tc = "" := by
    rcases h with h | h <;> (rw [upperRule, h]; exact h0)
  have hl : parseYearList (upperRule tc) = some [] := by
    rw [hr]; decide
  rw [determine_sideW_list tc yo year [] (by rw [hr]; decide)
    (by rw [hr]; decide) (by rw [hr]; decide) hl]
  simp

theorem claim_C10_witness :
    determine_sideW (tcRule none) [2020] 2024 = ("below", false) ∧
    determine_sideW (tcRule (some "")) [2020] 2021 =
      ("below", false) :=
  ⟨claim_C10_empty_rule (tcRule none) [2020] 2024 (Or.inl rfl),
   claim_C10_empty_rule (tcRule (some "")) [2020] 2021 (Or.inr rfl)⟩

/-!
Claim C7: the category-color mapping.
-/

theorem insertStr_perm (x : String) :
    ∀ (l : List String), (insertStr x l).Perm (x :: l)
  | [] => by simp [insertStr]
  | y :: ys => by
    by_cases h : strLe x y
    · simp [insertStr, h]
    · simp only [insertStr, if_neg h]
      exact ((insertStr_perm x ys).cons y).trans
        (List.Perm.swap x y ys)

theorem sortStr_perm : ∀ (l : List String), (sortStr l).Perm l
  | [] => List.Perm.refl _
  | x :: xs =>
    (insertStr_perm x (sortStr xs)).trans ((sortStr_perm xs).cons x)

theorem sortStr_nodup {l : List String} (h : l.Nodup) :
    (sortStr l).Nodup :=
  ((sortStr_perm l).nodup_iff).mpr h

theorem get_category_colors_keys (c : ColorConfig)
    (cats : List String) :
    (get_category_colors c cats).map Prod.fst = sortStr cats := by
  unfold get_category_colors
  rw [List.map_map]
  have hcomp : (Prod.fst ∘ fun p : Nat × String =>
      (p.2, categoryColorAt c p.1 p.2)) = Prod.snd := rfl
  rw [hcomp, List.enum_map_snd]

/-- C7: the key set of the per-call category-color mapping is exactly
the distinct categories of the dataset; every known category maps to
its fixed configured color and every unknown category to the palette
entry at its lexicographic rank among the sorted categories modulo
the palette size. -/
theorem claim_C7_category_colors (c : ColorConfig)
    (cats : List String) (hnd : cats.Nodup) :
    ((get_category_colors c cats).map Prod.fst).Perm cats ∧
    (∀ cat ∈ cats,
      (get_category_colors c cats).lookup cat =
        some (categoryColorAt c ((sortStr cats).indexOf cat) cat)) ∧
    (∀ cat ∈ cats, ∀ col, legacyMapping c cat = some col →
      (get_category_colors c cats).lookup cat = some col) ∧
    (∀ cat ∈ cats, legacyMapping c cat = none →
      (get_category_colors c cats).lookup cat =
        some (defaultColors.getD
          ((sortStr cats).indexOf cat % defaultColors.length)
          (""))) := by
  have hlook : ∀ cat ∈ cats,
      (get_category_colors c cats).lookup cat =
        some (categoryColorAt c ((sortStr cats).indexOf cat) cat) := by
    intro cat hcat
    have hmem : cat ∈ sortStr cats :=
      (sortStr_perm cats).mem_iff.mpr hcat
    have hlt : (sortStr cats).indexOf cat < (sortStr cats).length :=
      List.indexOf_lt_length.mpr hmem
    have hget : (sortStr cats).get
        ⟨(sortStr cats).indexOf cat, hlt⟩ = cat :=
      List.indexOf_get hlt
    have hmain := lookup_enumFrom_map (categoryColorAt c)
      (sortStr cats) (sortStr_nodup hnd) 0
      ((sortStr cats).indexOf cat) hlt
    rw [hget, Nat.zero_add] at hmain
    unfold get_category_colors
    rw [List.enum]
    exact hmain
  refine ⟨?_, hlook, ?_, ?_⟩
  · rw [get_category_colors_keys]
    exact sortStr_perm cats
  · intro cat hcat col hcol
    rw [hlook cat hcat]
    unfold categoryColorAt
    rw [hcol]
  · intro cat hcat hcol
    rw [hlook cat hcat]
    unfold categoryColorAt
    rw [hcol]

theorem claim_C7_witness :
    (get_category_colors ccFix ["zeta", "adaptive"]).lookup
      "adaptive" = some "yellow!40" ∧
    (get_category_colors ccFix ["zeta", "adaptive"]).lookup
      "zeta" = some "green!20" := by
  have h := claim_C7_category_colors ccFix ["zeta", "adaptive"]
    (by decide)
  constructor
  · rw [h.2.1 "adaptive" (by decide)]
    decide
  · rw [h.2.1 "zeta" (by decide)]
    decide

/-!
Claim C8: structure of the method-node section.
-/

theorem isPrefixOf_append_self {α : Type} [BEq α] [LawfulBEq α] :
    ∀ (a b : List α), a.isPrefixOf (a ++ b) = true
  | [], _ => by simp [List.isPrefixOf]
  | c :: cs, b => by
    simp [List.isPrefixOf, isPrefixOf_append_self cs b]

theorem isPrefixOf_append_false {α : Type} [BEq α] [LawfulBEq α] :
    ∀ (p t s : List α), p.isPrefixOf t = false →
      t.isPrefixOf p = false → p.isPrefixOf (t ++ s) = false
  | [], t, s, h1, _ => by simp [List.isPrefixOf] at h1
  | a :: as, [], s, _, h2 => by simp [List.isPrefixOf] at h2
  | a :: as, b :: bs, s, h1, h2 => by
    by_cases hab : (a == b) = true
    · simp only [List.isPrefixOf, hab, Bool.true_and] at h1
      have hba : (b == a) = true := by
        rw [beq_iff_eq] at hab ⊢
        exact hab.symm
      simp only [List.isPrefixOf, hba, Bool.true_and] at h2
      simp only [List.cons_append, List.isPrefixOf, hab,
        Bool.true_and]
      exact isPrefixOf_append_false as bs s h1 h2
    · have hab2 : (a == b) = false := by
        simpa using hab
      simp only [List.cons_append, List.isPrefixOf, hab2,
        Bool.false_and]

theorem lineIsNode_cellAmp (v : VisualConfig) (r : Record) :
    lineIsNode (cellAmp v r) = true := by
  unfold lineIsNode cellAmp
  rw [Bool.or_eq_true]
  right
  simp only [String.data_append, List.append_assoc]
  exact isPrefixOf_append_self _ _

theorem lineIsNode_cellBreak (v : VisualConfig) (r : Record) :
    lineIsNode (cellBreak v r) = true := by
  unfold lineIsNode cellBreak
  rw [Bool.or_eq_true]
  right
  simp only [String.data_append, List.append_assoc]
  exact isPrefixOf_append_self _ _

theorem lineIsNode_single (v : VisualConfig) (showQ : ℚ → String)
    (side : String) (branch : ℚ) (year : Int) (r : Record) :
    lineIsNode (singleNodeLine v showQ side branch year r) = true := by
  unfold lineIsNode singleNodeLine
  rw [Bool.or_eq_true]
  left
  simp only [String.data_append, List.append_assoc]
  exact isPrefixOf_append_self _ _

theorem lineIsNode_comment (s : String) :
    lineIsNode ("    % --- " ++ s) = false := by
  unfold lineIsNode
  rw [Bool.or_eq_false_iff]
  constructor <;>
    · rw [String.data_append]
      exact isPrefixOf_append_false _ _ _ (by decide) (by decide)

theorem lineIsNode_matrixOpen (s : String) :
    lineIsNode ("    \\matrix[methodmatrix, " ++ s) = false := by
  unfold lineIsNode
  rw [Bool.or_eq_false_iff]
  constructor <;>
    · rw [String.data_append]
      exact isPrefixOf_append_false _ _ _ (by decide) (by decide)

theorem lineIsNode_blank : lineIsNode "" = false := by decide

theorem lineIsNode_close : lineIsNode "    \x7d;" = false := by decide

theorem lineIsMatrix_cellAmp (v : VisualConfig) (r : Record) :
    lineIsMatrix (cellAmp v r) = false := by
  unfold lineIsMatrix cellAmp
  simp only [String.data_append, List.append_assoc]
  exact isPrefixOf_append_false _ _ _ (by decide) (by decide)

theorem lineIsMatrix_cellBreak (v : VisualConfig) (r : Record) :
    lineIsMatrix (cellBreak v r) = false := by
  unfold lineIsMatrix cellBreak
  simp only [String.data_append, List.append_assoc]
  exact isPrefixOf_append_false _ _ _ (by decide) (by decide)

theorem lineIsMatrix_single (v : VisualConfig) (showQ : ℚ → String)
    (side : String) (branch : ℚ) (year : Int) (r : Record) :
    lineIsMatrix (singleNodeLine v showQ side branch year r) = false := by
  unfold lineIsMatrix singleNodeLine
  simp only [String.data_append, List.append_assoc]
  exact isPrefixOf_append_false _ _ _ (by decide) (by decide)

theorem lineIsMatrix_comment (s : String) :
    lineIsMatrix ("    % --- " ++ s) = false := by
  unfold lineIsMatrix
  rw [String.data_append]
  exact isPrefixOf_append_false _ _ _ (by decide) (by decide)

theorem lineIsMatrix_matrixOpen (s : String) :
    lineIsMatrix ("    \\matrix[methodmatrix, " ++ s) = true := by
  unfold lineIsMatrix
  have hsplit : ("    \\matrix[methodmatrix, " : String) =
      "    \\matrix[" ++ "methodmatrix, " := by decide
  rw [hsplit, String.data_append, String.data_append,
    List.append_assoc]
  exact isPrefixOf_append_self _ _

theorem lineIsMatrix_blank : lineIsMatrix "" = false := by decide

theorem lineIsMatrix_close : lineIsMatrix "    \x7d;" = false := by
  decide

theorem pairedCellLines_counts (v : VisualConfig) :
    ∀ (g : List Record),
      (pairedCellLines v g).countP lineIsNode = g.length ∧
      (pairedCellLines v g).countP lineIsMatrix = 0
  | [] => by simp [pairedCellLines]
  | [r] => by
    simp [pairedCellLines, List.countP_cons, lineIsNode_cellBreak,
      lineIsMatrix_cellBreak]
  | r1 :: r2 :: rest => by
    have ih := pairedCellLines_counts v rest
    simp [pairedCellLines, List.countP_cons, lineIsNode_cellAmp,
      lineIsNode_cellBreak, lineIsMatrix_cellAmp,
      lineIsMatrix_cellBreak, ih.1, ih.2]

theorem mapCellBreak_counts (v : VisualConfig) (g : List Record) :
    (g.map (cellBreak v)).countP lineIsNode = g.length ∧
    (g.map (cellBreak v)).countP lineIsMatrix = 0 := by
  induction g with
  | nil => simp
  | cons r rest ih =>
    simp [List.countP_cons, lineIsNode_cellBreak,
      lineIsMatrix_cellBreak, ih.1, ih.2]

theorem cells_small (v : VisualConfig) (g : List Record)
    (small : ¬ 3 < g.length) :
    ∀ (n i : Nat), g.length - i = n →
      (List.range' i n).flatMap (cellEmit v g) =
        (g.drop i).map (cellBreak v) := by
  intro n
  induction n with
  | zero =>
    intro i h
    have hle : g.length ≤ i := Nat.sub_eq_zero_iff_le.mp h
    rw [List.drop_eq_nil_of_le hle, List.range'_zero]
    simp
  | succ n ih =>
    intro i h
    have hi : i < g.length := by omega
    rw [List.range'_succ, List.flatMap_cons]
    have hemit : cellEmit v g i = [cellBreak v (g.get ⟨i, hi⟩)] := by
      simp only [cellEmit, List.get?_eq_get hi]
      rw [if_neg (fun hc => small hc.1),
        if_pos (fun hc => small hc.1)]
    rw [hemit, ih (i + 1) (by omega), List.drop_eq_get_cons hi,
      List.map_cons, List.singleton_append]

theorem cells_paired (v : VisualConfig) (g : List Record)
    (big : 3 < g.length) :
    ∀ (n i : Nat), g.length - i = n → i % 2 = 0 →
      (List.range' i n).flatMap (cellEmit v g) =
        pairedCellLines v (g.drop i) := by
  intro n
  induction n using Nat.strong_induction_on with
  | _ n ih =>
    intro i h hpar
    match n, h with
    | 0, h =>
      have hle : g.length ≤ i := Nat.sub_eq_zero_iff_le.mp h
      rw [List.drop_eq_nil_of_le hle, List.range'_zero]
      simp [pairedCellLines]
    | 1, h =>
      have hi : i < g.length := by omega
      rw [List.range'_succ, List.range'_zero, List.flatMap_cons,
        List.flatMap_nil, List.append_nil]
      have hemit : cellEmit v g i =
          [cellBreak v (g.get ⟨i, hi⟩)] := by
        simp only [cellEmit, List.get?_eq_get hi]
        rw [if_neg (fun hc => by omega),
          if_pos (fun hc => by omega)]
      rw [hemit, List.drop_eq_get_cons hi,
        List.drop_eq_nil_of_le (show g.length ≤ i + 1 by omega)]
      rfl
    | (n + 2), h =>
      have hi : i < g.length := by omega
      have hi1 : i + 1 < g.length := by omega
      rw [List.range'_succ, List.range'_succ, List.flatMap_cons,
        List.flatMap_cons]
      have hemit1 : cellEmit v g i =
          [cellAmp v (g.get ⟨i, hi⟩),
           cellBreak v (g.get ⟨i + 1, hi1⟩)] := by
        simp only [cellEmit, List.get?_eq_get hi,
          List.get?_eq_get hi1]
        rw [if_pos ⟨big, hpar, by omega⟩]
      have hemit2 : cellEmit v g (i + 1) = [] := by
        simp only [cellEmit, List.get?_eq_get hi1]
        rw [if_neg (fun hc => by omega)]
        rw [if_neg (fun hc => hc ⟨big, by omega⟩)]
      rw [hemit1, hemit2,
        ih n (by omega) (i + 2) (by omega) (by omega)]
      rw [List.drop_eq_get_cons hi, List.drop_eq_get_cons hi1]
      simp [pairedCellLines]

theorem matrixCellLines_eq (v : VisualConfig) (g : List Record) :
    matrixCellLines v g =
      if 3 < g.length then pairedCellLines v g
      else g.map (cellBreak v) := by
  unfold matrixCellLines
  rw [List.range_eq_range']
  by_cases big : 3 < g.length
  · rw [if_pos big]
    have hp := cells_paired v g big g.length 0 (by omega) (by omega)
    rw [List.drop_zero] at hp
    exact hp
  · rw [if_neg big]
    have hp := cells_small v g big g.length 0 (by omega)
    rw [List.drop_zero] at hp
    exact hp

theorem matrixCellLines_counts (v : VisualConfig) (g : List Record) :
    (matrixCellLines v g).countP lineIsNode = g.length ∧
    (matrixCellLines v g).countP lineIsMatrix = 0 := by
  rw [matrixCellLines_eq]
  by_cases big : 3 < g.length
  · rw [if_pos big]
    exact pairedCellLines_counts v g
  · rw [if_neg big]
    exact mapCellBreak_counts v g

/-- C8: for every dataset and year in it, the per-year emission of
the method-node section contains exactly one styled node and no
matrix container when the year has a single record, and exactly one
matrix container with exactly `k` styled cells (in original record
order, paired two-per-row iff `k > 3`) when the year has `k > 1`
records. -/
theorem claim_C8_method_nodes (v : VisualConfig) (showQ : ℚ → String)
    (side : String) (branch : ℚ) (df : List Record) (y : Int)
    (hy : y ∈ df.map (fun r => r.year)) :
    ((rowsOfYear df y).length = 1 →
      (yearBlock v showQ side branch y
        (rowsOfYear df y)).countP lineIsNode = 1 ∧
      (yearBlock v showQ side branch y
        (rowsOfYear df y)).countP lineIsMatrix = 0) ∧
    (1 < (rowsOfYear df y).length →
      (yearBlock v showQ side branch y
        (rowsOfYear df y)).countP lineIsNode =
        (rowsOfYear df y).length ∧
      (yearBlock v showQ side branch y
        (rowsOfYear df y)).countP lineIsMatrix = 1 ∧
      matrixCellLines v (rowsOfYear df y) =
        (if 3 < (rowsOfYear df y).length then
          pairedCellLines v (rowsOfYear df y)
         else (rowsOfYear df y).map (cellBreak v))) := by
  set g := rowsOfYear df y with hgdef
  constructor
  · intro h1
    obtain ⟨r, hr⟩ := List.length_eq_one.mp h1
    rw [hr]
    unfold yearBlock
    rw [if_pos (by simp)]
    simp only [String.append_assoc]
    simp [List.countP_cons, lineIsNode_blank, lineIsNode_comment,
      lineIsNode_single, lineIsMatrix_blank, lineIsMatrix_comment,
      lineIsMatrix_single]
  · intro h2
    have hne1 : g.length ≠ 1 := by omega
    have hcells := matrixCellLines_counts v g
    unfold yearBlock
    rw [if_neg hne1]
    refine ⟨?_, ?_, matrixCellLines_eq v g⟩
    · simp only [String.append_assoc]
      simp [List.countP_append, List.countP_cons, lineIsNode_blank,
        lineIsNode_comment, lineIsNode_matrixOpen, lineIsNode_close,
        hcells.1]
    · simp only [String.append_assoc]
      simp [List.countP_append, List.countP_cons, lineIsMatrix_blank,
        lineIsMatrix_comment, lineIsMatrix_matrixOpen,
        lineIsMatrix_close, hcells.2]

theorem claim_C8_witness :
    (yearBlock vcFix (fun _ => "") "above" (6/5) 2020
      (rowsOfYear dfFour 2020)).countP lineIsNode = 1 ∧
    (yearBlock vcFix (fun _ => "") "above" (6/5) 2020
      (rowsOfYear dfFour 2020)).countP lineIsMatrix = 0 ∧
    (yearBlock vcFix (fun _ => "") "below" (6/5) 2022
      (rowsOfYear dfFour 2022)).countP lineIsNode = 4 ∧
    (yearBlock vcFix (fun _ => "") "below" (6/5) 2022
      (rowsOfYear dfFour 2022)).countP lineIsMatrix = 1 := by
  have h1 := claim_C8_method_nodes vcFix (fun _ => "") "above"
    (6/5) dfFour 2020 (by decide)
  have h2 := claim_C8_method_nodes vcFix (fun _ => "") "below"
    (6/5) dfFour 2022 (by decide)
  have k1 : (rowsOfYear dfFour 2020).length = 1 := by decide
  have k4 : (rowsOfYear dfFour 2022).length = 4 := by decide
  have hnode := (h2.2 (by rw [k4]; omega)).1
  rw [k4] at hnode
  exact ⟨(h1.1 k1).1, (h1.1 k1).2, hnode,
    (h2.2 (by rw [k4]; omega)).2.1⟩

/-!
Claim C1: determinism of `generate`.
-/

/-- C1: `generate` is deterministic — its output string does not
depend on the instance state left by earlier calls (the only mutable
state, `category_colors` and `_year_order`, is recomputed from the
dataset before being read), so two calls with the same dataset and
configuration, in particular two consecutive calls on the same
generator instance, produce byte-identical output. -/
theorem claim_C1_generate_deterministic (showQ : ℚ → String)
    (cfg : GenConfig) (df : List Record) (s1 s2 : GenState) :
    (generate showQ cfg df s1).1 = (generate showQ cfg df s2).1 ∧
    (generate showQ cfg df ((generate showQ cfg df s1).2)).1 =
      (generate showQ cfg df s1).1 :=
  ⟨rfl, rfl⟩

end TimelineFishbone
